import Mathlib

/-!
# arvandiscount: the controller package

A shallow embedding of `src/controller/controller.go` (discount / gift codes for
live streams) and the properties of its handlers.

The handlers talk to three things that live outside the package:

* the relational store behind `dbConnect` (go-pg over PostgreSQL), modelled as
  four tables held as lists of rows, with the three kinds of calls the handlers
  make (`Insert`, `Select` of one row, `Update ... Set ... Where`);
* `guuid.New().String()`, `time.Now()` and backend failures, modelled as the
  values `Ext` hands to one handler invocation, in call order;
* the process-wide `seededRand`, modelled as explicit state (`Rand`).

A handler is a function from the state before the call, the bound request and
the external values to the state after the call and the arguments of the one
`c.JSON` call it makes.
-/

namespace Controller

/-! ## Data model -/

/-- An instant (`time.Time`), in nanoseconds. -/
abbrev Time := Int

/-- A `float64`, as the value carried around: the handlers store and return
amounts but never compute with them. -/
abbrev Float64 := Nat

/-- Row of the `discount_managers` table (`type DiscountManager struct`). -/
structure DiscountManager where
  Id : String
  Code : String
  /-- Discriminator: false = discount, true = gift. -/
  DiscountGift : Bool
  DiscountId : String
  GiftId : String
  StreamId : String
  CreatedAt : Time
  UpdatedAt : Time
deriving DecidableEq

/-- Row of the `discounts` table (`type Discount struct`); the field
`DiscountManager` is the relation pointer, nil unless a select loads it. -/
structure Discount where
  Id : String
  Percent : Int
  Amount : Float64
  PercentAmount : Bool
  DiscountManager : Option DiscountManager
  CreatedAt : Time
  UpdatedAt : Time
deriving DecidableEq

/-- Row of the `gifts` table (`type Gift struct`); the field `DiscountManager`
is the relation pointer, nil unless a select loads it. -/
structure Gift where
  Id : String
  Amount : Float64
  Used : Int
  Capacity : Int
  DiscountManager : Option DiscountManager
  CreatedAt : Time
  UpdatedAt : Time
deriving DecidableEq

/-- Row of the `streams` table (`type Stream struct`). -/
structure Stream where
  Id : String
  Name : String
  Start : Time
  Finish : Time
  Status : String
  DiscountManagers : List DiscountManager
  CreatedAt : Time
  UpdatedAt : Time
deriving DecidableEq

/-- Request body of `AddDiscount`. -/
structure AddDiscountType where
  Amount : Float64
  Percent : Int
  PercentAmount : Bool
  StreamId : String
deriving DecidableEq

/-- Request body of `AddGift`. -/
structure AddGiftType where
  Amount : Float64
  Capacity : Int
  StreamId : String
deriving DecidableEq

/-- Request body of `GetGift`. -/
structure GetGiftType where
  Code : String
deriving DecidableEq

/-! ## The store behind `dbConnect` -/

/-- The four tables created by `CreateTables`. -/
structure DB where
  discount_managers : List DiscountManager
  discounts : List Discount
  gifts : List Gift
  streams : List Stream
deriving DecidableEq

/-- The store right after `CreateTables` on a fresh database. -/
def DB.empty : DB := ⟨[], [], [], []⟩

/-- Errors a store call can return. -/
inductive StoreError where
  /-- No row matched a single-row select (`pg.ErrNoRows`). -/
  | ErrNoRows
  /-- More than one row matched a single-row select (`pg.ErrMultiRows`). -/
  | ErrMultiRows
  /-- Primary-key violation on insert. -/
  | Conflict
  /-- Any other failure of the backend (connection, timeout, ...). -/
  | Backend
deriving DecidableEq

/-- A select into a single struct must return exactly one row. -/
def assertOneRow {α : Type} (rows : List α) : Except StoreError α :=
  match rows with
  | [] => .error .ErrNoRows
  | [r] => .ok r
  | _ :: _ :: _ => .error .ErrMultiRows

/-- `dbConnect.Insert(&Discount{...})`: `id` is the primary key of the table. -/
def insertDiscount (fault : Bool) (db : DB) (row : Discount) : Except StoreError DB :=
  if fault then .error .Backend
  else if row.Id ∈ db.discounts.map Discount.Id then .error .Conflict
  else .ok { db with discounts := db.discounts ++ [row] }

/-- `dbConnect.Insert(&Gift{...})`. -/
def insertGift (fault : Bool) (db : DB) (row : Gift) : Except StoreError DB :=
  if fault then .error .Backend
  else if row.Id ∈ db.gifts.map Gift.Id then .error .Conflict
  else .ok { db with gifts := db.gifts ++ [row] }

/-- `dbConnect.Insert(&DiscountManager{...})`. -/
def insertDiscountManager (fault : Bool) (db : DB) (row : DiscountManager) :
    Except StoreError DB :=
  if fault then .error .Backend
  else if row.Id ∈ db.discount_managers.map DiscountManager.Id then .error .Conflict
  else .ok { db with discount_managers := db.discount_managers ++ [row] }

/-- `dbConnect.Insert(&Stream{...})`. -/
def insertStream (fault : Bool) (db : DB) (row : Stream) : Except StoreError DB :=
  if fault then .error .Backend
  else if row.Id ∈ db.streams.map Stream.Id then .error .Conflict
  else .ok { db with streams := db.streams ++ [row] }

/-- `dbConnect.Model(&stream).Where("id = ?", id).Select()`. -/
def selectStream (fault : Bool) (db : DB) (id : String) : Except StoreError Stream :=
  if fault then .error .Backend
  else assertOneRow (db.streams.filter fun s => s.Id = id)

/-- Rows of `gifts` joined with `discount_managers` on `gift_id = gift.id`,
restricted to `code = ?`: what the query of `GetGift` ranges over. Each row is
the gift with its relation pointer loaded. -/
def giftRows (db : DB) (code : String) : List Gift :=
  db.gifts.flatMap fun g =>
    (db.discount_managers.filter fun m => m.GiftId = g.Id ∧ m.Code = code).map
      fun m => { g with DiscountManager := some m }

/-- `dbConnect.Model(&gift).Relation("DiscountManager").Where("code = ?", code).Select()`. -/
def selectGift (fault : Bool) (db : DB) (code : String) : Except StoreError Gift :=
  if fault then .error .Backend
  else assertOneRow (giftRows db code)

/-- `dbConnect.Model(&Gift{}).Set("used = ?", used).Where("id = ?", id).Update()`:
only the column `used` of the rows with that id is written. -/
def updateGiftUsed (fault : Bool) (db : DB) (used : Int) (id : String) : Except StoreError DB :=
  if fault then .error .Backend
  else .ok { db with gifts := db.gifts.map fun g => if g.Id = id then { g with Used := used } else g }

/-! ## External values and the random source -/

/-- What the outside world hands to one handler invocation, in call order:
the k-th `guuid.New().String()`, the k-th `time.Now()`, and whether the backend
fails the k-th store call. -/
structure Ext where
  uuid : Nat → String
  now : Nat → Time
  fault : Nat → Bool

/-- The generator behind `seededRand`: the stream of raw draws that `Intn`
reduces (draws it rejects left out) and the position in it. Every stream and
every position is a state of the source. -/
structure Rand where
  src : Nat → Nat
  pos : Nat

/-- `seededRand.Intn(n)`: a value in `[0, n)`; panics (none) when `n <= 0`. -/
def Rand.Intn (r : Rand) (n : Nat) : Option (Nat × Rand) :=
  if n = 0 then none else some (r.src r.pos % n, { r with pos := r.pos + 1 })

/-- The alphabet of the codes (`const charset`). -/
def charset : String :=
  "abcdefghijklmnopqrstuvwxyz" ++ "ABCDEFGHIJKLMNOPQRSTUVWXYZ0123456789" ++ "!@#$&*"

/-- The loop of `StringWithCharset` over a buffer of `n` bytes, first byte
first. Indexing the charset out of range panics (none). -/
def fillBytes (charset : List Char) : Nat → Rand → Option (List Char × Rand)
  | 0, r => some ([], r)
  | n + 1, r =>
    match r.Intn charset.length with
    | none => none
    | some (i, r1) =>
      match charset[i]? with
      | none => none
      | some c =>
        match fillBytes charset n r1 with
        | none => none
        | some (rest, r2) => some (c :: rest, r2)

/-- `StringWithCharset(length, charset)`; `make([]byte, length)` panics (none)
on a negative length. -/
def StringWithCharset (length : Int) (charset : String) (r : Rand) : Option (String × Rand) :=
  if length < 0 then none
  else
    match fillBytes charset.data length.toNat r with
    | none => none
    | some (b, r1) => some (String.mk b, r1)

/-- `RandString(length)`. -/
def RandString (length : Int) (r : Rand) : Option (String × Rand) :=
  StringWithCharset length charset r

/-! ## Handlers -/

/-- Process state: the store behind `dbConnect` and `seededRand`. -/
structure State where
  dbConnect : DB
  seededRand : Rand

/-- The arguments of the `c.JSON(code, gin.H{...})` call a handler makes. -/
structure Response where
  /-- HTTP status. -/
  code : Nat
  /-- Entry "status" of the body. -/
  status : Nat
  message : String
  gift_amount : Option Float64
  gift_code : Option String
  /-- Entry "Code" of the body (only one error path of `AddDiscount` sets it). -/
  Code : Option String
deriving DecidableEq

/-- The body every failing path sends. -/
def somethingWentWrong : Response :=
  ⟨500, 500, "Something went wrong", none, none, none⟩

/-- `time.Minute * 45`, in nanoseconds. -/
def minutes45 : Int := 45 * 60 * 1000000000

/-- `AddStream`. -/
def AddStream (s : State) (stream : Stream) (ext : Ext) : State × Response :=
  let start := ext.now 0 - minutes45
  let finish := ext.now 1 + minutes45
  match insertStream (ext.fault 0) s.dbConnect
      { Id := ext.uuid 0, Name := stream.Name, Start := start, Finish := finish,
        Status := stream.Status, DiscountManagers := [],
        CreatedAt := ext.now 2, UpdatedAt := ext.now 3 } with
  | .error _ => (s, somethingWentWrong)
  | .ok db1 =>
    ({ s with dbConnect := db1 }, ⟨201, 201, "Stream created Successfully", none, none, none⟩)

/-- `AddDiscount`; none when the handler panics. -/
def AddDiscount (s : State) (req : AddDiscountType) (ext : Ext) : Option (State × Response) :=
  let uuid := ext.uuid 0
  match insertDiscount (ext.fault 0) s.dbConnect
      { Id := uuid, Percent := req.Percent, Amount := req.Amount,
        PercentAmount := req.PercentAmount, DiscountManager := none,
        CreatedAt := ext.now 0, UpdatedAt := ext.now 1 } with
  | .error _ => some (s, somethingWentWrong)
  | .ok db1 =>
    match selectStream (ext.fault 1) db1 req.StreamId with
    | .error _ => some ({ s with dbConnect := db1 }, somethingWentWrong)
    | .ok stream =>
      match RandString 8 s.seededRand with
      | none => none
      | some (code, r1) =>
        match insertDiscountManager (ext.fault 2) db1
            { Id := ext.uuid 1, Code := code, DiscountGift := false, DiscountId := uuid,
              GiftId := "", StreamId := stream.Id,
              CreatedAt := ext.now 2, UpdatedAt := ext.now 3 } with
        | .error _ =>
          some (⟨db1, r1⟩, ⟨500, 500, "Something went wrong", none, none, some code⟩)
        | .ok db2 =>
          some (⟨db2, r1⟩, ⟨201, 201, "Discount created Successfully", none, none, none⟩)

/-- `AddGift`; none when the handler panics. -/
def AddGift (s : State) (req : AddGiftType) (ext : Ext) : Option (State × Response) :=
  let uuid := ext.uuid 0
  match insertGift (ext.fault 0) s.dbConnect
      { Id := uuid, Amount := req.Amount, Used := 0, Capacity := req.Capacity,
        DiscountManager := none, CreatedAt := ext.now 0, UpdatedAt := ext.now 1 } with
  | .error _ => some (s, somethingWentWrong)
  | .ok db1 =>
    match selectStream (ext.fault 1) db1 req.StreamId with
    | .error _ => some ({ s with dbConnect := db1 }, somethingWentWrong)
    | .ok stream =>
      match RandString 8 s.seededRand with
      | none => none
      | some (code, r1) =>
        match insertDiscountManager (ext.fault 2) db1
            { Id := ext.uuid 1, Code := code, DiscountGift := true, DiscountId := "",
              GiftId := uuid, StreamId := stream.Id,
              CreatedAt := ext.now 2, UpdatedAt := ext.now 3 } with
        | .error _ => some (⟨db1, r1⟩, somethingWentWrong)
        | .ok db2 =>
          some (⟨db2, r1⟩, ⟨201, 201, "Gift created Successfully", none, some code, none⟩)

/-- `GetGift` (redeem). `gift.Used + 1` cannot overflow: it is computed only
when `gift.Used < gift.Capacity`. -/
def GetGift (s : State) (req : GetGiftType) (ext : Ext) : State × Response :=
  match selectGift (ext.fault 0) s.dbConnect req.Code with
  | .error _ => (s, somethingWentWrong)
  | .ok gift =>
    if gift.Used ≥ gift.Capacity then
      (s, ⟨412, 412, "No more Capacity to use. All used.", none, none, none⟩)
    else
      match updateGiftUsed (ext.fault 1) s.dbConnect (gift.Used + 1) gift.Id with
      | .error _ => (s, somethingWentWrong)
      | .ok db1 =>
        ({ s with dbConnect := db1 },
          ⟨200, 200, "Gift Used Column Updated. It can be seen using GetAllGifts API.",
            some gift.Amount, none, none⟩)

/-! ## Sequences of calls -/

/-- The write of `GetGift` as seen on one row of `gifts`. -/
def setUsed (used : Int) (id : String) (g : Gift) : Gift :=
  if g.Id = id then { g with Used := used } else g

/-- One call of the service: the handler, its bound request and the external
values of that invocation. -/
inductive Op where
  | addStream (req : Stream) (ext : Ext)
  | addDiscount (req : AddDiscountType) (ext : Ext)
  | addGift (req : AddGiftType) (ext : Ext)
  | getGift (req : GetGiftType) (ext : Ext)

/-- The external values of a call. -/
def Op.ext : Op → Ext
  | .addStream _ e => e
  | .addDiscount _ e => e
  | .addGift _ e => e
  | .getGift _ e => e

/-- Runs one call; none when the handler panics. -/
def step (s : State) : Op → Option (State × Response)
  | .addStream req e => some (AddStream s req e)
  | .addDiscount req e => AddDiscount s req e
  | .addGift req e => AddGift s req e
  | .getGift req e => some (GetGift s req e)

/-- Runs calls one after another. -/
def runOps (s : State) : List Op → Option State
  | [] => some s
  | op :: ops =>
    match step s op with
    | none => none
    | some (s1, _) => runOps s1 ops

/-- Runs `GetGift` on one code once per element of `exts`, one call after
another, and collects the responses. -/
def redeemAll (code : String) : List Ext → State → List Response × State
  | [], s => ([], s)
  | e :: es, s =>
    let r := GetGift s ⟨code⟩ e
    let rest := redeemAll code es r.1
    (r.2 :: rest.1, rest.2)

/-- The primary key of `gifts`: no two rows share an id. -/
def DB.giftKey (db : DB) : Prop := (db.gifts.map Gift.Id).Nodup

instance (db : DB) : Decidable db.giftKey := by unfold DB.giftKey; infer_instance

/-- What one call can do to the store, given its external values: nothing, or
one of the writes the handlers make. -/
inductive Effect (e : Ext) (db : DB) : DB → Prop where
  | same : Effect e db db
  | stream (row : Stream) : Effect e db { db with streams := db.streams ++ [row] }
  | discount (d : Discount) (m : DiscountManager) (linked : Bool) :
      d.Id = e.uuid 0 → m.DiscountGift = false → m.DiscountId = e.uuid 0 → m.GiftId = "" →
      Effect e db
        { db with
          discounts := db.discounts ++ [d]
          discount_managers := db.discount_managers ++ (if linked then [m] else []) }
  | gift (g : Gift) (m : DiscountManager) (linked : Bool) :
      g.Id = e.uuid 0 → g.Used = 0 → (∀ x ∈ db.gifts, x.Id ≠ g.Id) →
      m.DiscountGift = true → m.GiftId = e.uuid 0 → m.DiscountId = "" →
      Effect e db
        { db with
          gifts := db.gifts ++ [g]
          discount_managers := db.discount_managers ++ (if linked then [m] else []) }
  | redeemed (code : String) (g : Gift) :
      giftRows db code = [g] → g.Used < g.Capacity →
      Effect e db { db with gifts := db.gifts.map (setUsed (g.Used + 1) g.Id) }

/-- The counter of every gift lies between 0 and its capacity (or stays 0 when
the capacity is negative). -/
def DB.usedOk (db : DB) : Prop :=
  ∀ g ∈ db.gifts, 0 ≤ g.Used ∧ g.Used ≤ max g.Capacity 0

/-- Every link row points at exactly one existing row, on the side its
discriminator names. -/
def DB.linksOk (db : DB) : Prop :=
  ∀ m ∈ db.discount_managers,
    (m.DiscountGift = false ∧ m.DiscountId ≠ "" ∧ m.GiftId = "" ∧
        ∃ d ∈ db.discounts, d.Id = m.DiscountId) ∨
      (m.DiscountGift = true ∧ m.GiftId ≠ "" ∧ m.DiscountId = "" ∧
        ∃ g ∈ db.gifts, g.Id = m.GiftId)

/-! ## Concurrent calls of `GetGift` -/

/-- One invocation of `GetGift` between its store calls: before the select,
after the select and the capacity guard with the update still to do, or
finished with its response. -/
inductive Call where
  | start (req : GetGiftType) (ext : Ext)
  | selected (gift : Gift) (ext : Ext)
  | done (resp : Response)

/-- Runs an invocation up to and including its next store call. -/
def Call.advance (db : DB) : Call → DB × Call
  | .start req ext =>
    match selectGift (ext.fault 0) db req.Code with
    | .error _ => (db, .done somethingWentWrong)
    | .ok gift =>
      if gift.Used ≥ gift.Capacity then
        (db, .done ⟨412, 412, "No more Capacity to use. All used.", none, none, none⟩)
      else (db, .selected gift ext)
  | .selected gift ext =>
    match updateGiftUsed (ext.fault 1) db (gift.Used + 1) gift.Id with
    | .error _ => (db, .done somethingWentWrong)
    | .ok db1 =>
      (db1, .done ⟨200, 200, "Gift Used Column Updated. It can be seen using GetAllGifts API.",
        some gift.Amount, none, none⟩)
  | .done resp => (db, .done resp)

/-- The response of a finished invocation. -/
def Call.response : Call → Option Response
  | .done resp => some resp
  | _ => none

/-- Runs invocations against one store in the order a schedule gives: each
entry names the invocation that makes its next store call. -/
def interleave (db : DB) (calls : List Call) : List Nat → DB × List Call
  | [] => (db, calls)
  | i :: rest =>
    match calls[i]? with
    | none => interleave db calls rest
    | some c => interleave (c.advance db).1 (calls.set i (c.advance db).2) rest

/-! ## Sample values -/

/-- External values with no backend failure: ids "g1" then "m1", clock at 0. -/
def sampleExt : Ext := ⟨fun k => if k = 0 then "g1" else "m1", fun _ => 0, fun _ => false⟩

/-- External values for creating the stream "s1". -/
def sampleStreamExt : Ext := ⟨fun _ => "s1", fun _ => 0, fun _ => false⟩

/-- A generator whose raw draws are 3, 10, 17, ... -/
def sampleRand : Rand := ⟨fun k => 7 * k + 3, 0⟩

/-- The link row of the sample gift. -/
def sampleManager : DiscountManager := ⟨"m1", "dkryFMT0", true, "", "g1", "s1", 0, 0⟩

/-- A gift "g1" of amount 10 with the given counter and capacity. -/
def sampleGift (used capacity : Int) : Gift := ⟨"g1", 10, used, capacity, none, 0, 0⟩

/-- External values for issuing a discount: ids "d1" then "m2". -/
def sampleDiscountExt : Ext := ⟨fun k => if k = 0 then "d1" else "m2", fun _ => 0, fun _ => false⟩

/-- The stream "s1", as `AddStream` creates it at clock 0. -/
def sampleStream : Stream := ⟨"s1", "n", -minutes45, minutes45, "live", [], 0, 0⟩

/-- A store holding only the stream "s1". -/
def streamOnly : DB := ⟨[], [], [], [sampleStream]⟩

/-- A store holding the stream "s1" and the sample gift behind code "dkryFMT0". -/
def sampleDB (used capacity : Int) : DB :=
  ⟨[sampleManager], [], [sampleGift used capacity], [sampleStream]⟩

/-! ## Facts about the store calls -/

theorem assertOneRow_ok {α : Type} (rows : List α) (a : α) :
    assertOneRow rows = .ok a ↔ rows = [a] := by
  cases rows with
  | nil => simp [assertOneRow]
  | cons x t =>
    cases t with
    | nil => simp [assertOneRow]
    | cons y u => simp [assertOneRow]

theorem assertOneRow_nil {α : Type} : assertOneRow ([] : List α) = .error .ErrNoRows := rfl

theorem selectGift_ok {fault : Bool} {db : DB} {code : String} {g : Gift}
    (h : selectGift fault db code = .ok g) : fault = false ∧ giftRows db code = [g] := by
  unfold selectGift at h
  cases fault with
  | true => simp at h
  | false => simpa [assertOneRow_ok] using h

theorem mem_giftRows {db : DB} {code : String} {g : Gift} :
    g ∈ giftRows db code ↔
      ∃ g0 ∈ db.gifts, ∃ m ∈ db.discount_managers,
        (m.GiftId = g0.Id ∧ m.Code = code) ∧ g = { g0 with DiscountManager := some m } := by
  simp only [giftRows, List.mem_flatMap, List.mem_map, List.mem_filter, decide_eq_true_eq]
  constructor
  · rintro ⟨g0, hg0, m, ⟨hm, hc⟩, rfl⟩
    exact ⟨g0, hg0, m, hm, hc, rfl⟩
  · rintro ⟨g0, hg0, m, hm, hc, rfl⟩
    exact ⟨g0, hg0, m, ⟨hm, hc⟩, rfl⟩

theorem setUsed_Id (used : Int) (id : String) (g : Gift) : (setUsed used id g).Id = g.Id := by
  unfold setUsed; split <;> rfl

theorem updateGiftUsed_ok (db : DB) (used : Int) (id : String) :
    updateGiftUsed false db used id = .ok { db with gifts := db.gifts.map (setUsed used id) } := by
  simp [updateGiftUsed, setUsed]

/-- The join of `GetGift` sees an update of `used` row by row. -/
theorem giftRows_update (db : DB) (used : Int) (id code : String) :
    giftRows { db with gifts := db.gifts.map (setUsed used id) } code =
      (giftRows db code).map (setUsed used id) := by
  simp only [giftRows]
  induction db.gifts with
  | nil => simp
  | cons g t ih =>
    simp only [List.map_cons, List.flatMap_cons, List.map_append, ih, setUsed_Id]
    congr 1
    simp only [List.map_map]
    apply List.map_congr_left
    intro m _
    simp only [Function.comp, setUsed]
    split <;> rfl

/-! ## The code generator -/

theorem charset_ne_nil : charset.data ≠ [] := by decide

theorem fillBytes_spec (cs : List Char) (hcs : cs ≠ []) (n : Nat) (r : Rand) :
    ∃ b r1, fillBytes cs n r = some (b, r1) ∧ b.length = n ∧ (∀ c ∈ b, c ∈ cs) ∧
      r1 = { r with pos := r.pos + n } := by
  induction n generalizing r with
  | zero => exact ⟨[], r, rfl, rfl, by simp, rfl⟩
  | succ n ih =>
    have hlen : cs.length ≠ 0 := by simpa using hcs
    have hlt : r.src r.pos % cs.length < cs.length := Nat.mod_lt _ (Nat.pos_of_ne_zero hlen)
    obtain ⟨b, r1, hb, hl, hmem, hr⟩ := ih { r with pos := r.pos + 1 }
    refine ⟨cs[r.src r.pos % cs.length] :: b, r1, ?_, by simp [hl], ?_, ?_⟩
    · simp [fillBytes, Rand.Intn, hlen, List.getElem?_eq_getElem hlt, hb]
    · intro c hc
      rcases List.mem_cons.1 hc with rfl | hc
      · exact List.getElem_mem hlt
      · exact hmem c hc
    · rw [hr]; simp [Nat.add_comm, Nat.add_left_comm]

theorem RandString_ok (n : Nat) (r : Rand) :
    ∃ s, RandString (n : Int) r = some (s, { r with pos := r.pos + n }) ∧ s.length = n ∧
      ∀ c ∈ s.data, c ∈ charset.data := by
  obtain ⟨b, r1, hb, hl, hmem, hr⟩ := fillBytes_spec charset.data charset_ne_nil n r
  refine ⟨String.mk b, ?_, by simpa using hl, by simpa using hmem⟩
  simp [RandString, StringWithCharset, hb, hr]

/-- C9: for every length n >= 0 and every state of the random source,
`RandString(n)` returns a string of exactly n characters, each a character of
`charset`, which has 68 distinct characters; every index `Intn` draws for it is
within the bounds of `charset` (the model panics on an index out of range, and
here it never panics). -/
theorem RandString_spec (length : Int) (h : 0 ≤ length) (r : Rand) :
    charset.length = 68 ∧ charset.data.Nodup ∧
    (∀ r0 : Rand, ∃ i r1, r0.Intn charset.length = some (i, r1) ∧ i < charset.length) ∧
    ∃ s r1, RandString length r = some (s, r1) ∧ (s.length : Int) = length ∧
      ∀ c ∈ s.data, c ∈ charset.data := by
  refine ⟨by decide, by decide, ?_, ?_⟩
  · intro r0
    refine ⟨r0.src r0.pos % charset.length, { r0 with pos := r0.pos + 1 }, ?_, ?_⟩
    · have : charset.length ≠ 0 := by decide
      simp [Rand.Intn, this]
    · exact Nat.mod_lt _ (by decide)
  · obtain ⟨n, rfl⟩ := Int.eq_ofNat_of_zero_le h
    obtain ⟨s, hs, hl, hmem⟩ := RandString_ok n r
    exact ⟨s, _, hs, by simp [hl], hmem⟩

theorem RandString_spec_witness :
    (0 : Int) ≤ 8 ∧ (charset.length = 68 ∧ charset.data.Nodup ∧
      (∀ r0 : Rand, ∃ i r1, r0.Intn charset.length = some (i, r1) ∧ i < charset.length) ∧
      ∃ s r1, RandString 8 sampleRand = some (s, r1) ∧ (s.length : Int) = 8 ∧
        ∀ c ∈ s.data, c ∈ charset.data) :=
  ⟨by decide, RandString_spec 8 (by decide) sampleRand⟩

/-! ## Redeeming a code -/

/-- C1: when the code resolves to a gift with used >= capacity, `GetGift`
answers 412, sends no gift_amount and leaves the whole state, hence that gift's
used, as it was. -/
theorem GetGift_capacity_exhausted (s : State) (req : GetGiftType) (ext : Ext) (g : Gift)
    (hsel : selectGift (ext.fault 0) s.dbConnect req.Code = .ok g)
    (hcap : g.Used ≥ g.Capacity) :
    (GetGift s req ext).2.code = 412 ∧ (GetGift s req ext).2.gift_amount = none ∧
      (GetGift s req ext).1 = s := by
  simp [GetGift, hsel, hcap]

theorem GetGift_capacity_exhausted_witness :
    selectGift (sampleExt.fault 0) (sampleDB 2 2) "dkryFMT0"
        = .ok { sampleGift 2 2 with DiscountManager := some sampleManager } ∧
      (2 : Int) ≥ 2 ∧
      ((GetGift ⟨sampleDB 2 2, sampleRand⟩ ⟨"dkryFMT0"⟩ sampleExt).2.code = 412 ∧
        (GetGift ⟨sampleDB 2 2, sampleRand⟩ ⟨"dkryFMT0"⟩ sampleExt).2.gift_amount = none ∧
        (GetGift ⟨sampleDB 2 2, sampleRand⟩ ⟨"dkryFMT0"⟩ sampleExt).1
          = ⟨sampleDB 2 2, sampleRand⟩) :=
  ⟨by rfl, by decide,
    GetGift_capacity_exhausted ⟨sampleDB 2 2, sampleRand⟩ ⟨"dkryFMT0"⟩ sampleExt
      { sampleGift 2 2 with DiscountManager := some sampleManager } (by rfl) (by decide)⟩

/-- C8: for a code that no gift of the store owns, the select of `GetGift`
finds no row (the not-found error), and `GetGift` answers 500, never 200, sends
no gift_amount and leaves the whole state, hence every gift's used, as it was. -/
theorem GetGift_unknown_code (s : State) (req : GetGiftType) (ext : Ext)
    (h : ∀ g ∈ s.dbConnect.gifts, ∀ m ∈ s.dbConnect.discount_managers,
      ¬ (m.GiftId = g.Id ∧ m.Code = req.Code)) :
    selectGift false s.dbConnect req.Code = .error .ErrNoRows ∧
      (GetGift s req ext).2.code = 500 ∧ (GetGift s req ext).2.code ≠ 200 ∧
      (GetGift s req ext).2.gift_amount = none ∧ (GetGift s req ext).1 = s := by
  have hrows : giftRows s.dbConnect req.Code = [] := by
    apply List.eq_nil_iff_forall_not_mem.2
    intro g hg
    obtain ⟨g0, hg0, m, hm, hc, _⟩ := mem_giftRows.1 hg
    exact h g0 hg0 m hm hc
  have hsel : ∀ b, ∃ e, selectGift b s.dbConnect req.Code = .error e := by
    intro b
    cases b with
    | true => exact ⟨_, rfl⟩
    | false => exact ⟨.ErrNoRows, by simp [selectGift, hrows, assertOneRow_nil]⟩
  obtain ⟨e, he⟩ := hsel (ext.fault 0)
  refine ⟨by simp [selectGift, hrows, assertOneRow_nil], ?_⟩
  simp [GetGift, he, somethingWentWrong]

theorem GetGift_unknown_code_witness :
    (∀ g ∈ (sampleDB 0 2).gifts, ∀ m ∈ (sampleDB 0 2).discount_managers,
      ¬ (m.GiftId = g.Id ∧ m.Code = "nosuchcd")) ∧
    (selectGift false (sampleDB 0 2) "nosuchcd" = .error .ErrNoRows ∧
      (GetGift ⟨sampleDB 0 2, sampleRand⟩ ⟨"nosuchcd"⟩ sampleExt).2.code = 500 ∧
      (GetGift ⟨sampleDB 0 2, sampleRand⟩ ⟨"nosuchcd"⟩ sampleExt).2.code ≠ 200 ∧
      (GetGift ⟨sampleDB 0 2, sampleRand⟩ ⟨"nosuchcd"⟩ sampleExt).2.gift_amount = none ∧
      (GetGift ⟨sampleDB 0 2, sampleRand⟩ ⟨"nosuchcd"⟩ sampleExt).1
        = ⟨sampleDB 0 2, sampleRand⟩) :=
  ⟨by decide,
    GetGift_unknown_code ⟨sampleDB 0 2, sampleRand⟩ ⟨"nosuchcd"⟩ sampleExt (by decide)⟩

theorem giftKey_unique {db : DB} (hkey : db.giftKey) {x y : Gift}
    (hx : x ∈ db.gifts) (hy : y ∈ db.gifts) (h : x.Id = y.Id) : x = y :=
  List.inj_on_of_nodup_map hkey hx hy h

/-- The stored row behind a row of the join. -/
theorem giftRows_stored {db : DB} {code : String} {g : Gift} (hrows : giftRows db code = [g]) :
    ∃ g0 ∈ db.gifts, ∃ m ∈ db.discount_managers, m.GiftId = g0.Id ∧ m.Code = code ∧
      g = { g0 with DiscountManager := some m } := by
  have hg : g ∈ giftRows db code := by simp [hrows]
  obtain ⟨g0, hg0, m, hm, ⟨h1, h2⟩, rfl⟩ := mem_giftRows.1 hg
  exact ⟨g0, hg0, m, hm, h1, h2, rfl⟩

/-- The successful path of `GetGift`, computed. -/
theorem GetGift_ok (s : State) (req : GetGiftType) (ext : Ext) (g : Gift)
    (hsel : selectGift (ext.fault 0) s.dbConnect req.Code = .ok g)
    (hcap : g.Used < g.Capacity) (hupd : ext.fault 1 = false) :
    GetGift s req ext =
      ({ s with dbConnect :=
          { s.dbConnect with gifts := s.dbConnect.gifts.map (setUsed (g.Used + 1) g.Id) } },
        ⟨200, 200, "Gift Used Column Updated. It can be seen using GetAllGifts API.",
          some g.Amount, none, none⟩) := by
  have hnot : ¬ g.Capacity ≤ g.Used := not_le.2 hcap
  simp [GetGift, hsel, hupd, updateGiftUsed_ok, hnot]

/-- C10: in a store whose gifts have distinct ids (id is the primary key), when
the code resolves to a gift g with used < capacity and the update does not fail, `GetGift` answers 200 with gift_amount = g's amount; the
Discount, DiscountManager and Stream tables and the random source are unchanged,
and in the gifts table exactly the row of g changes, in its used column only,
which grows by one. -/
theorem GetGift_success (s : State) (req : GetGiftType) (ext : Ext) (g : Gift)
    (hkey : s.dbConnect.giftKey)
    (hsel : selectGift (ext.fault 0) s.dbConnect req.Code = .ok g)
    (hcap : g.Used < g.Capacity) (hupd : ext.fault 1 = false) :
    (GetGift s req ext).2.code = 200 ∧
    (GetGift s req ext).2.gift_amount = some g.Amount ∧
    (GetGift s req ext).1.seededRand = s.seededRand ∧
    (GetGift s req ext).1.dbConnect.discounts = s.dbConnect.discounts ∧
    (GetGift s req ext).1.dbConnect.discount_managers = s.dbConnect.discount_managers ∧
    (GetGift s req ext).1.dbConnect.streams = s.dbConnect.streams ∧
    ∃ g0 ∈ s.dbConnect.gifts,
      g0.Id = g.Id ∧ g0.Amount = g.Amount ∧ g0.Used = g.Used ∧ g0.Capacity = g.Capacity ∧
      (GetGift s req ext).1.dbConnect.gifts =
        s.dbConnect.gifts.map fun x => if x = g0 then { g0 with Used := g0.Used + 1 } else x := by
  obtain ⟨_, hrows⟩ := selectGift_ok hsel
  obtain ⟨g0, hg0, m, _, _, _, rfl⟩ := giftRows_stored hrows
  rw [GetGift_ok s req ext _ hsel hcap hupd]
  refine ⟨rfl, rfl, rfl, rfl, rfl, rfl, g0, hg0, rfl, rfl, rfl, rfl, ?_⟩
  show s.dbConnect.gifts.map (setUsed (g0.Used + 1) g0.Id) = _
  apply List.map_congr_left
  intro x hx
  by_cases hid : x.Id = g0.Id
  · have hxg : x = g0 := giftKey_unique hkey hx hg0 hid
    subst hxg
    simp [setUsed]
  · have hxg : x ≠ g0 := fun h => hid (by rw [h])
    simp [setUsed, hid, hxg]

theorem GetGift_success_witness :
    (sampleDB 1 2).giftKey ∧
    selectGift (sampleExt.fault 0) (sampleDB 1 2) "dkryFMT0"
      = .ok { sampleGift 1 2 with DiscountManager := some sampleManager } ∧
    (1 : Int) < 2 ∧ sampleExt.fault 1 = false ∧
    ((GetGift ⟨sampleDB 1 2, sampleRand⟩ ⟨"dkryFMT0"⟩ sampleExt).2.code = 200 ∧
      (GetGift ⟨sampleDB 1 2, sampleRand⟩ ⟨"dkryFMT0"⟩ sampleExt).2.gift_amount = some 10 ∧
      (GetGift ⟨sampleDB 1 2, sampleRand⟩ ⟨"dkryFMT0"⟩ sampleExt).1.seededRand = sampleRand ∧
      (GetGift ⟨sampleDB 1 2, sampleRand⟩ ⟨"dkryFMT0"⟩ sampleExt).1.dbConnect.discounts
        = (sampleDB 1 2).discounts ∧
      (GetGift ⟨sampleDB 1 2, sampleRand⟩ ⟨"dkryFMT0"⟩ sampleExt).1.dbConnect.discount_managers
        = (sampleDB 1 2).discount_managers ∧
      (GetGift ⟨sampleDB 1 2, sampleRand⟩ ⟨"dkryFMT0"⟩ sampleExt).1.dbConnect.streams
        = (sampleDB 1 2).streams ∧
      ∃ g0 ∈ (sampleDB 1 2).gifts,
        g0.Id = "g1" ∧ g0.Amount = 10 ∧ g0.Used = 1 ∧ g0.Capacity = 2 ∧
        (GetGift ⟨sampleDB 1 2, sampleRand⟩ ⟨"dkryFMT0"⟩ sampleExt).1.dbConnect.gifts =
          (sampleDB 1 2).gifts.map
            fun x => if x = g0 then { g0 with Used := g0.Used + 1 } else x) :=
  ⟨by decide, by rfl, by decide, by rfl,
    GetGift_success ⟨sampleDB 1 2, sampleRand⟩ ⟨"dkryFMT0"⟩ sampleExt
      { sampleGift 1 2 with DiscountManager := some sampleManager }
      (by decide) (by rfl) (by decide) (by rfl)⟩

/-! ## Redeeming one code repeatedly -/

/-- The exhausted path of `GetGift`, computed. -/
theorem GetGift_exhausted_eq (s : State) (req : GetGiftType) (ext : Ext) (g : Gift)
    (hsel : selectGift (ext.fault 0) s.dbConnect req.Code = .ok g)
    (hcap : g.Capacity ≤ g.Used) :
    GetGift s req ext = (s, ⟨412, 412, "No more Capacity to use. All used.", none, none, none⟩) := by
  simp [GetGift, hsel, hcap]

theorem selectGift_of_rows {db : DB} {code : String} {g : Gift} (hrows : giftRows db code = [g]) :
    selectGift false db code = .ok g := by
  simp [selectGift, hrows, assertOneRow]

/-- With r units of capacity left, n calls in a row succeed min(n, r) times,
then fail with 412. -/
theorem redeemAll_remaining (code : String) (exts : List Ext) :
    ∀ (s : State) (g : Gift) (r : Nat), giftRows s.dbConnect code = [g] →
      g.Capacity = g.Used + r → (∀ e ∈ exts, ∀ k, e.fault k = false) →
      (redeemAll code exts s).1.map Response.code =
          List.replicate (min exts.length r) 200 ++
            List.replicate (exts.length - min exts.length r) 412 ∧
        giftRows (redeemAll code exts s).2.dbConnect code =
          [{ g with Used := g.Used + (min exts.length r : Nat) }] := by
  induction exts with
  | nil =>
    intro s g r hrows _ _
    simp [redeemAll, hrows]
  | cons e es ih =>
    intro s g r hrows hcap hfault
    have he0 : e.fault 0 = false := hfault e (List.mem_cons_self _ _) 0
    have he1 : e.fault 1 = false := hfault e (List.mem_cons_self _ _) 1
    have hes : ∀ e1 ∈ es, ∀ k, e1.fault k = false :=
      fun e1 h1 k => hfault e1 (List.mem_cons_of_mem _ h1) k
    have hsel : selectGift (e.fault 0) s.dbConnect (GetGiftType.mk code).Code = .ok g := by
      rw [he0]; exact selectGift_of_rows hrows
    cases r with
    | zero =>
      have hle : g.Capacity ≤ g.Used := by omega
      obtain ⟨h1, h2⟩ := ih s g 0 hrows hcap hes
      simp only [redeemAll, GetGift_exhausted_eq s ⟨code⟩ e g hsel hle]
      refine ⟨?_, ?_⟩
      · simp only [List.map_cons, h1]
        simp [List.replicate_succ]
      · simpa using h2
    | succ r =>
      have hlt : g.Used < g.Capacity := by omega
      have hrows1 : giftRows
          { s.dbConnect with gifts := s.dbConnect.gifts.map (setUsed (g.Used + 1) g.Id) } code
            = [{ g with Used := g.Used + 1 }] := by
        rw [giftRows_update, hrows]
        simp [setUsed]
      obtain ⟨h1, h2⟩ := ih
        { s with dbConnect :=
          { s.dbConnect with gifts := s.dbConnect.gifts.map (setUsed (g.Used + 1) g.Id) } }
        { g with Used := g.Used + 1 } r hrows1 (by simp only [hcap]; push_cast; ring) hes
      simp only [redeemAll, GetGift_ok s ⟨code⟩ e g hsel hlt he1]
      have hmin : min (es.length + 1) (r + 1) = min es.length r + 1 := by omega
      have hsub : es.length + 1 - (min es.length r + 1) = es.length - min es.length r := by omega
      refine ⟨?_, ?_⟩
      · simp only [List.map_cons, h1, List.length_cons, hmin, hsub, List.replicate_succ,
          List.cons_append]
      · rw [h2]
        simp only [List.length_cons, hmin]
        congr 2
        push_cast
        ring

/-- C2: for a gift with used = 0 and capacity C >= 0 that its code identifies
uniquely, n calls of `GetGift` on that code, one after another, with a store
that does not fail: the first min(n, C) calls answer 200, every later call
answers 412, so exactly min(n, C) calls succeed, and the gift ends with
used = min(n, C). -/
theorem redeemAll_spec (s : State) (code : String) (g : Gift) (exts : List Ext)
    (hrows : giftRows s.dbConnect code = [g]) (hused : g.Used = 0) (hcap : 0 ≤ g.Capacity)
    (hfault : ∀ e ∈ exts, ∀ k, e.fault k = false) :
    (redeemAll code exts s).1.map Response.code =
        List.replicate (min exts.length g.Capacity.toNat) 200 ++
          List.replicate (exts.length - min exts.length g.Capacity.toNat) 412 ∧
      ((redeemAll code exts s).1.map Response.code).count 200
        = min exts.length g.Capacity.toNat ∧
      giftRows (redeemAll code exts s).2.dbConnect code =
        [{ g with Used := (min exts.length g.Capacity.toNat : Nat) }] := by
  have hc : g.Capacity = g.Used + (g.Capacity.toNat : Nat) := by
    rw [hused, Int.toNat_of_nonneg hcap]; simp
  obtain ⟨h1, h2⟩ := redeemAll_remaining code exts s g g.Capacity.toNat hrows hc hfault
  refine ⟨h1, ?_, ?_⟩
  · rw [h1, List.count_append, List.count_replicate, List.count_replicate]
    simp
  · rw [h2, hused]; simp

theorem redeemAll_spec_witness :
    giftRows (sampleDB 0 2) "dkryFMT0"
      = [{ sampleGift 0 2 with DiscountManager := some sampleManager }] ∧
    (0 : Int) = 0 ∧ (0 : Int) ≤ 2 ∧
    (∀ e ∈ [sampleExt, sampleExt, sampleExt], ∀ k, e.fault k = false) ∧
    ((redeemAll "dkryFMT0" [sampleExt, sampleExt, sampleExt]
        ⟨sampleDB 0 2, sampleRand⟩).1.map Response.code = [200, 200, 412] ∧
      ((redeemAll "dkryFMT0" [sampleExt, sampleExt, sampleExt]
        ⟨sampleDB 0 2, sampleRand⟩).1.map Response.code).count 200 = 2 ∧
      giftRows (redeemAll "dkryFMT0" [sampleExt, sampleExt, sampleExt]
        ⟨sampleDB 0 2, sampleRand⟩).2.dbConnect "dkryFMT0"
        = [{ sampleGift 2 2 with DiscountManager := some sampleManager }]) :=
  ⟨by decide, by decide, by decide, by simp [sampleExt],
    redeemAll_spec ⟨sampleDB 0 2, sampleRand⟩ "dkryFMT0"
      { sampleGift 0 2 with DiscountManager := some sampleManager }
      [sampleExt, sampleExt, sampleExt] (by decide) (by decide) (by decide)
      (by simp [sampleExt])⟩

/-! ## Issuing -/

theorem insertGift_ok {fault : Bool} {db db1 : DB} {row : Gift}
    (h : insertGift fault db row = .ok db1) :
    (∀ x ∈ db.gifts, x.Id ≠ row.Id) ∧ db1 = { db with gifts := db.gifts ++ [row] } := by
  unfold insertGift at h
  split at h
  · simp at h
  · split at h
    · simp at h
    · rename_i _ hid
      refine ⟨fun x hx hxid => hid (List.mem_map.2 ⟨x, hx, hxid⟩), ?_⟩
      simpa using h.symm

theorem insertDiscount_ok {fault : Bool} {db db1 : DB} {row : Discount}
    (h : insertDiscount fault db row = .ok db1) :
    (∀ x ∈ db.discounts, x.Id ≠ row.Id) ∧ db1 = { db with discounts := db.discounts ++ [row] } := by
  unfold insertDiscount at h
  split at h
  · simp at h
  · split at h
    · simp at h
    · rename_i _ hid
      refine ⟨fun x hx hxid => hid (List.mem_map.2 ⟨x, hx, hxid⟩), ?_⟩
      simpa using h.symm

theorem insertDiscountManager_ok {fault : Bool} {db db1 : DB} {row : DiscountManager}
    (h : insertDiscountManager fault db row = .ok db1) :
    (∀ x ∈ db.discount_managers, x.Id ≠ row.Id) ∧
      db1 = { db with discount_managers := db.discount_managers ++ [row] } := by
  unfold insertDiscountManager at h
  split at h
  · simp at h
  · split at h
    · simp at h
    · rename_i _ hid
      refine ⟨fun x hx hxid => hid (List.mem_map.2 ⟨x, hx, hxid⟩), ?_⟩
      simpa using h.symm

theorem insertStream_ok {fault : Bool} {db db1 : DB} {row : Stream}
    (h : insertStream fault db row = .ok db1) :
    (∀ x ∈ db.streams, x.Id ≠ row.Id) ∧ db1 = { db with streams := db.streams ++ [row] } := by
  unfold insertStream at h
  split at h
  · simp at h
  · split at h
    · simp at h
    · rename_i _ hid
      refine ⟨fun x hx hxid => hid (List.mem_map.2 ⟨x, hx, hxid⟩), ?_⟩
      simpa using h.symm

theorem selectStream_ok {fault : Bool} {db : DB} {id : String} {st : Stream}
    (h : selectStream fault db id = .ok st) : st ∈ db.streams ∧ st.Id = id := by
  unfold selectStream at h
  split at h
  · simp at h
  · rw [assertOneRow_ok] at h
    have hm : st ∈ db.streams.filter fun x => x.Id = id := by rw [h]; simp
    simpa using hm

theorem RandString_eight {r r1 : Rand} {code : String} (h : RandString 8 r = some (code, r1)) :
    code.length = 8 ∧ ∀ c ∈ code.data, c ∈ charset.data := by
  obtain ⟨s, hs, hl, hmem⟩ := RandString_ok 8 r
  have h8 : RandString 8 r = some (s, { r with pos := r.pos + 8 }) := by simpa using hs
  rw [h8] at h
  simp only [Option.some.injEq, Prod.mk.injEq] at h
  obtain ⟨rfl, _⟩ := h
  exact ⟨hl, hmem⟩

/-- C6: a call of `AddGift` that answers 201 names an existing stream, returns
as gift_code a string of 8 characters of `charset`, and leaves the store with
exactly one more gift, of a new id, with used = 0 and the requested amount and
capacity, and exactly one more DiscountManager, carrying that code, with
discount_gift = true, GiftId the new gift's id and StreamId the given stream's
id; the join over the code shows the new gift with that manager. -/
theorem AddGift_created (s s1 : State) (req : AddGiftType) (ext : Ext) (resp : Response)
    (h : AddGift s req ext = some (s1, resp)) (hc : resp.code = 201) :
    ∃ code, resp.gift_code = some code ∧ code.length = 8 ∧
      (∀ c ∈ code.data, c ∈ charset.data) ∧
      (∃ stream ∈ s.dbConnect.streams, stream.Id = req.StreamId) ∧
      (∀ x ∈ s.dbConnect.gifts, x.Id ≠ ext.uuid 0) ∧
      s1.dbConnect.gifts = s.dbConnect.gifts ++
        [⟨ext.uuid 0, req.Amount, 0, req.Capacity, none, ext.now 0, ext.now 1⟩] ∧
      s1.dbConnect.discount_managers = s.dbConnect.discount_managers ++
        [⟨ext.uuid 1, code, true, "", ext.uuid 0, req.StreamId, ext.now 2, ext.now 3⟩] ∧
      s1.dbConnect.discounts = s.dbConnect.discounts ∧
      s1.dbConnect.streams = s.dbConnect.streams ∧
      (⟨ext.uuid 0, req.Amount, 0, req.Capacity,
          some ⟨ext.uuid 1, code, true, "", ext.uuid 0, req.StreamId, ext.now 2, ext.now 3⟩,
          ext.now 0, ext.now 1⟩ : Gift) ∈ giftRows s1.dbConnect code := by
  unfold AddGift at h
  simp only at h
  split at h
  · simp only [Option.some.injEq, Prod.mk.injEq] at h
    rw [← h.2] at hc; simp [somethingWentWrong] at hc
  · rename_i db1 hins
    split at h
    · simp only [Option.some.injEq, Prod.mk.injEq] at h
      rw [← h.2] at hc; simp [somethingWentWrong] at hc
    · rename_i stream hstream
      split at h
      · simp at h
      · rename_i code r1 hrand
        split at h
        · simp only [Option.some.injEq, Prod.mk.injEq] at h
          rw [← h.2] at hc; simp [somethingWentWrong] at hc
        · rename_i db2 hins2
          simp only [Option.some.injEq, Prod.mk.injEq] at h
          obtain ⟨hs1, hresp⟩ := h
          obtain ⟨hnew, hdb1⟩ := insertGift_ok hins
          obtain ⟨hst, hstid⟩ := selectStream_ok hstream
          obtain ⟨_, hdb2⟩ := insertDiscountManager_ok hins2
          obtain ⟨hlen, hchars⟩ := RandString_eight hrand
          subst hs1 hresp hdb2 hdb1
          refine ⟨code, rfl, hlen, hchars, ⟨stream, by simpa using hst, hstid⟩, hnew,
            rfl, by simp [hstid], rfl, rfl, ?_⟩
          rw [mem_giftRows]
          refine ⟨_, List.mem_append_right _ (List.mem_singleton_self _), _,
            List.mem_append_right _ (List.mem_singleton_self _), ⟨rfl, rfl⟩, ?_⟩
          simp [hstid]

/-! ## What each handler does to the store -/

theorem AddStream_effect (s : State) (req : Stream) (e : Ext) :
    Effect e s.dbConnect (AddStream s req e).1.dbConnect := by
  unfold AddStream
  simp only
  split
  · exact Effect.same
  · rename_i db1 hins
    obtain ⟨_, rfl⟩ := insertStream_ok hins
    exact Effect.stream _

theorem AddDiscount_effect (s s1 : State) (req : AddDiscountType) (e : Ext) (resp : Response)
    (h : AddDiscount s req e = some (s1, resp)) : Effect e s.dbConnect s1.dbConnect := by
  unfold AddDiscount at h
  simp only at h
  split at h
  · simp only [Option.some.injEq, Prod.mk.injEq] at h
    rw [← h.1]; exact Effect.same
  · rename_i db1 hins
    obtain ⟨_, hdb1⟩ := insertDiscount_ok hins
    have hunlinked : Effect e s.dbConnect db1 := by
      have := @Effect.discount e s.dbConnect
        ⟨e.uuid 0, req.Percent, req.Amount, req.PercentAmount, none, e.now 0, e.now 1⟩
        ⟨"", "", false, e.uuid 0, "", "", 0, 0⟩ false rfl rfl rfl rfl
      simpa [hdb1] using this
    split at h
    · simp only [Option.some.injEq, Prod.mk.injEq] at h
      rw [← h.1]; exact hunlinked
    · rename_i stream hstream
      split at h
      · simp at h
      · rename_i code r1 hrand
        split at h
        · simp only [Option.some.injEq, Prod.mk.injEq] at h
          rw [← h.1]; exact hunlinked
        · rename_i db2 hins2
          simp only [Option.some.injEq, Prod.mk.injEq] at h
          obtain ⟨_, hdb2⟩ := insertDiscountManager_ok hins2
          rw [← h.1]
          have := @Effect.discount e s.dbConnect
            ⟨e.uuid 0, req.Percent, req.Amount, req.PercentAmount, none, e.now 0, e.now 1⟩
            ⟨e.uuid 1, code, false, e.uuid 0, "", stream.Id, e.now 2, e.now 3⟩
            true rfl rfl rfl rfl
          simpa [hdb2, hdb1] using this

theorem AddGift_effect (s s1 : State) (req : AddGiftType) (e : Ext) (resp : Response)
    (h : AddGift s req e = some (s1, resp)) : Effect e s.dbConnect s1.dbConnect := by
  unfold AddGift at h
  simp only at h
  split at h
  · simp only [Option.some.injEq, Prod.mk.injEq] at h
    rw [← h.1]; exact Effect.same
  · rename_i db1 hins
    obtain ⟨hnew, hdb1⟩ := insertGift_ok hins
    have hunlinked : Effect e s.dbConnect db1 := by
      have := @Effect.gift e s.dbConnect
        ⟨e.uuid 0, req.Amount, 0, req.Capacity, none, e.now 0, e.now 1⟩
        ⟨"", "", true, "", e.uuid 0, "", 0, 0⟩ false rfl rfl hnew rfl rfl rfl
      simpa [hdb1] using this
    split at h
    · simp only [Option.some.injEq, Prod.mk.injEq] at h
      rw [← h.1]; exact hunlinked
    · rename_i stream hstream
      split at h
      · simp at h
      · rename_i code r1 hrand
        split at h
        · simp only [Option.some.injEq, Prod.mk.injEq] at h
          rw [← h.1]; exact hunlinked
        · rename_i db2 hins2
          simp only [Option.some.injEq, Prod.mk.injEq] at h
          obtain ⟨_, hdb2⟩ := insertDiscountManager_ok hins2
          rw [← h.1]
          have := @Effect.gift e s.dbConnect
            ⟨e.uuid 0, req.Amount, 0, req.Capacity, none, e.now 0, e.now 1⟩
            ⟨e.uuid 1, code, true, "", e.uuid 0, stream.Id, e.now 2, e.now 3⟩
            true rfl rfl hnew rfl rfl rfl
          simpa [hdb2, hdb1] using this

theorem GetGift_effect (s : State) (req : GetGiftType) (e : Ext) :
    Effect e s.dbConnect (GetGift s req e).1.dbConnect := by
  cases hsel : selectGift (e.fault 0) s.dbConnect req.Code with
  | error err => simp only [GetGift, hsel]; exact Effect.same
  | ok g =>
    by_cases hcap : g.Capacity ≤ g.Used
    · rw [GetGift_exhausted_eq s req e g hsel hcap]; exact Effect.same
    · cases hf : e.fault 1 with
      | true =>
        have : GetGift s req e = (s, somethingWentWrong) := by
          simp [GetGift, hsel, hcap, hf, updateGiftUsed]
        rw [this]; exact Effect.same
      | false =>
        rw [GetGift_ok s req e g hsel (not_le.1 hcap) hf]
        exact Effect.redeemed req.Code g (selectGift_ok hsel).2 (not_le.1 hcap)

theorem step_effect (s s1 : State) (op : Op) (resp : Response)
    (h : step s op = some (s1, resp)) : Effect op.ext s.dbConnect s1.dbConnect := by
  cases op with
  | addStream req e =>
    simp only [step, Option.some.injEq] at h
    have := AddStream_effect s req e
    rw [h] at this; exact this
  | addDiscount req e => exact AddDiscount_effect s s1 req e resp h
  | addGift req e => exact AddGift_effect s s1 req e resp h
  | getGift req e =>
    simp only [step, Option.some.injEq] at h
    have := GetGift_effect s req e
    rw [h] at this; exact this

/-! ## Invariants of the store -/

theorem map_setUsed_Id (used : Int) (id : String) (l : List Gift) :
    (l.map (setUsed used id)).map Gift.Id = l.map Gift.Id := by
  simp [List.map_map, Function.comp_def, setUsed_Id]

theorem Effect.giftKey {e : Ext} {db db1 : DB} (h : Effect e db db1) (hkey : db.giftKey) :
    db1.giftKey := by
  cases h with
  | same => exact hkey
  | stream row => exact hkey
  | discount d m linked _ _ _ _ => exact hkey
  | gift g m linked _ _ hnew _ _ _ =>
    unfold DB.giftKey at hkey ⊢
    simp only [List.map_append, List.map_cons, List.map_nil]
    refine List.Nodup.append hkey (List.nodup_singleton _) ?_
    intro a ha hb
    obtain ⟨x, hx, rfl⟩ := List.mem_map.1 ha
    exact hnew x hx (List.mem_singleton.1 hb)
  | redeemed code g _ _ =>
    unfold DB.giftKey at hkey ⊢
    show ((db.gifts.map (setUsed (g.Used + 1) g.Id)).map Gift.Id).Nodup
    rw [map_setUsed_Id]
    exact hkey

/-- A redeemed gift is a stored row: with the primary key, the rows the update
touches carry the counter and the capacity the select returned. -/
theorem redeemed_row {db : DB} {code : String} {g x : Gift} (hkey : db.giftKey)
    (hrows : giftRows db code = [g]) (hx : x ∈ db.gifts) (hid : x.Id = g.Id) :
    x.Used = g.Used ∧ x.Capacity = g.Capacity ∧ x.Amount = g.Amount := by
  obtain ⟨g0, hg0, m, _, _, _, rfl⟩ := giftRows_stored hrows
  have : x = g0 := giftKey_unique hkey hx hg0 hid
  subst this
  exact ⟨rfl, rfl, rfl⟩

theorem Effect.usedOk {e : Ext} {db db1 : DB} (h : Effect e db db1) (hkey : db.giftKey)
    (hused : db.usedOk) : db1.usedOk := by
  cases h with
  | same => exact hused
  | stream row => exact hused
  | discount d m linked _ _ _ _ => exact hused
  | gift g m linked _ hzero _ _ _ _ =>
    intro x hx
    rcases List.mem_append.1 hx with hx | hx
    · exact hused x hx
    · have hxg : x = g := by simpa using hx
      subst hxg
      rw [hzero]
      exact ⟨le_refl _, le_max_right _ _⟩
  | redeemed code g hrows hlt =>
    intro x hx
    obtain ⟨y, hy, rfl⟩ := List.mem_map.1 hx
    by_cases hid : y.Id = g.Id
    · obtain ⟨hu, hc, _⟩ := redeemed_row hkey hrows hy hid
      have h0 := (hused y hy).1
      simp only [setUsed, hid, if_true]
      rw [hc]
      constructor
      · omega
      · exact le_trans (by omega) (le_max_left _ _)
    · simp only [setUsed, hid, if_false]
      exact hused y hy

theorem Effect.monotone {e : Ext} {db db1 : DB} (h : Effect e db db1) (hkey : db.giftKey) :
    ∀ g ∈ db.gifts, ∃ g1 ∈ db1.gifts,
      g1.Id = g.Id ∧ g.Used ≤ g1.Used ∧ g1.Capacity = g.Capacity ∧ g1.Amount = g.Amount := by
  cases h with
  | same => exact fun g hg => ⟨g, hg, rfl, le_refl _, rfl, rfl⟩
  | stream row => exact fun g hg => ⟨g, hg, rfl, le_refl _, rfl, rfl⟩
  | discount d m linked _ _ _ _ => exact fun g hg => ⟨g, hg, rfl, le_refl _, rfl, rfl⟩
  | gift g0 m linked _ _ _ _ _ _ =>
    exact fun g hg => ⟨g, List.mem_append_left _ hg, rfl, le_refl _, rfl, rfl⟩
  | redeemed code g0 hrows hlt =>
    intro g hg
    refine ⟨setUsed (g0.Used + 1) g0.Id g, List.mem_map_of_mem _ hg, setUsed_Id _ _ _, ?_, ?_, ?_⟩
    · by_cases hid : g.Id = g0.Id
      · obtain ⟨hu, _, _⟩ := redeemed_row hkey hrows hg hid
        simp only [setUsed, hid, if_true]
        omega
      · simp [setUsed, hid]
    · unfold setUsed; split <;> rfl
    · unfold setUsed; split <;> rfl

theorem Effect.linksOk {e : Ext} {db db1 : DB} (h : Effect e db db1)
    (huuid : ∀ k, e.uuid k ≠ "") (hlinks : db.linksOk) : db1.linksOk := by
  cases h with
  | same => exact hlinks
  | stream row => exact hlinks
  | discount d m linked hd hflag hdid hgid =>
    intro x hx
    rcases List.mem_append.1 hx with hx | hx
    · rcases hlinks x hx with ⟨h1, h2, h3, d0, hd0, hd1⟩ | h1
      · exact Or.inl ⟨h1, h2, h3, d0, List.mem_append_left _ hd0, hd1⟩
      · exact Or.inr h1
    · cases linked with
      | false => simp at hx
      | true =>
        have hxm : x = m := by simpa using hx
        subst hxm
        refine Or.inl ⟨hflag, by rw [hdid]; exact huuid 0, hgid, d,
          List.mem_append_right _ (List.mem_singleton_self _), by rw [hd, hdid]⟩
  | gift g m linked hg _ _ hflag hgid hdid =>
    intro x hx
    rcases List.mem_append.1 hx with hx | hx
    · rcases hlinks x hx with h1 | ⟨h1, h2, h3, g0, hg0, hg1⟩
      · exact Or.inl h1
      · exact Or.inr ⟨h1, h2, h3, g0, List.mem_append_left _ hg0, hg1⟩
    · cases linked with
      | false => simp at hx
      | true =>
        have hxm : x = m := by simpa using hx
        subst hxm
        refine Or.inr ⟨hflag, by rw [hgid]; exact huuid 0, hdid, g,
          List.mem_append_right _ (List.mem_singleton_self _), by rw [hg, hgid]⟩
  | redeemed code g _ _ =>
    intro x hx
    rcases hlinks x hx with h1 | ⟨h1, h2, h3, g0, hg0, hg1⟩
    · exact Or.inl h1
    · exact Or.inr ⟨h1, h2, h3, setUsed (g.Used + 1) g.Id g0, List.mem_map_of_mem _ hg0,
        by rw [setUsed_Id]; exact hg1⟩

theorem runOps_usedOk (ops : List Op) :
    ∀ (s s1 : State), runOps s ops = some s1 → s.dbConnect.giftKey → s.dbConnect.usedOk →
      s1.dbConnect.giftKey ∧ s1.dbConnect.usedOk := by
  induction ops with
  | nil =>
    intro s s1 h hkey hused
    simp only [runOps, Option.some.injEq] at h
    subst h
    exact ⟨hkey, hused⟩
  | cons op ops ih =>
    intro s s1 h hkey hused
    simp only [runOps] at h
    split at h
    · simp at h
    · rename_i s2 resp hstep
      have heff := step_effect s s2 op resp hstep
      exact ih s2 s1 h (heff.giftKey hkey) (heff.usedOk hkey hused)

theorem runOps_linksOk (ops : List Op) :
    ∀ (s s1 : State), runOps s ops = some s1 → (∀ op ∈ ops, ∀ k, op.ext.uuid k ≠ "") →
      s.dbConnect.linksOk → s1.dbConnect.linksOk := by
  induction ops with
  | nil =>
    intro s s1 h _ hlinks
    simp only [runOps, Option.some.injEq] at h
    subst h
    exact hlinks
  | cons op ops ih =>
    intro s s1 h huuid hlinks
    simp only [runOps] at h
    split at h
    · simp at h
    · rename_i s2 resp hstep
      have heff := step_effect s s2 op resp hstep
      exact ih s2 s1 h (fun o ho => huuid o (List.mem_cons_of_mem _ ho))
        (heff.linksOk (huuid op (List.mem_cons_self _ _)) hlinks)

theorem empty_giftKey : DB.empty.giftKey := by simp [DB.giftKey, DB.empty]

theorem empty_usedOk : DB.empty.usedOk := by simp [DB.usedOk, DB.empty]

theorem empty_linksOk : DB.empty.linksOk := by simp [DB.linksOk, DB.empty]

/-! ## The handlers always answer -/

theorem AddGift_total (s : State) (req : AddGiftType) (e : Ext) :
    ∃ out, AddGift s req e = some out := by
  obtain ⟨c, hc, _⟩ := RandString_ok 8 s.seededRand
  have h8 : RandString 8 s.seededRand = some (c, { s.seededRand with pos := s.seededRand.pos + 8 }) := by
    simpa using hc
  unfold AddGift
  simp only [h8]
  repeat' split
  all_goals exact ⟨_, rfl⟩

theorem AddDiscount_total (s : State) (req : AddDiscountType) (e : Ext) :
    ∃ out, AddDiscount s req e = some out := by
  obtain ⟨c, hc, _⟩ := RandString_ok 8 s.seededRand
  have h8 : RandString 8 s.seededRand = some (c, { s.seededRand with pos := s.seededRand.pos + 8 }) := by
    simpa using hc
  unfold AddDiscount
  simp only [h8]
  repeat' split
  all_goals exact ⟨_, rfl⟩

theorem step_total (s : State) (op : Op) : ∃ out, step s op = some out := by
  cases op with
  | addStream req e => exact ⟨_, rfl⟩
  | addDiscount req e => exact AddDiscount_total s req e
  | addGift req e => exact AddGift_total s req e
  | getGift req e => exact ⟨_, rfl⟩

theorem runOps_total (ops : List Op) : ∀ s : State, ∃ s1, runOps s ops = some s1 := by
  induction ops with
  | nil => exact fun s => ⟨s, rfl⟩
  | cons op ops ih =>
    intro s
    obtain ⟨⟨s2, resp⟩, h2⟩ := step_total s op
    obtain ⟨s1, h1⟩ := ih s2
    exact ⟨s1, by simp [runOps, h2, h1]⟩

/-! ## Claims on sequences of calls -/

theorem AddGift_created_witness :
    AddGift ⟨streamOnly, sampleRand⟩ ⟨10, 2, "s1"⟩ sampleExt
      = some (⟨sampleDB 0 2, ⟨sampleRand.src, 8⟩⟩,
          ⟨201, 201, "Gift created Successfully", none, some "dkryFMT0", none⟩) ∧
    (201 : Nat) = 201 ∧
    ∃ code, some "dkryFMT0" = some code ∧ code.length = 8 ∧
      (∀ c ∈ code.data, c ∈ charset.data) ∧
      (∃ stream ∈ streamOnly.streams, stream.Id = "s1") ∧
      (∀ x ∈ streamOnly.gifts, x.Id ≠ "g1") ∧
      (sampleDB 0 2).gifts = streamOnly.gifts ++ [⟨"g1", 10, 0, 2, none, 0, 0⟩] ∧
      (sampleDB 0 2).discount_managers = streamOnly.discount_managers ++
        [⟨"m1", code, true, "", "g1", "s1", 0, 0⟩] ∧
      (sampleDB 0 2).discounts = streamOnly.discounts ∧
      (sampleDB 0 2).streams = streamOnly.streams ∧
      (⟨"g1", 10, 0, 2, some ⟨"m1", code, true, "", "g1", "s1", 0, 0⟩, 0, 0⟩ : Gift)
        ∈ giftRows (sampleDB 0 2) code :=
  ⟨by rfl, by rfl,
    AddGift_created ⟨streamOnly, sampleRand⟩ ⟨sampleDB 0 2, ⟨sampleRand.src, 8⟩⟩ ⟨10, 2, "s1"⟩
      sampleExt ⟨201, 201, "Gift created Successfully", none, some "dkryFMT0", none⟩
      (by rfl) (by rfl)⟩

/-- C3, as the code has it: in every store reachable from the empty store by
any sequence of calls of AddStream, AddDiscount, AddGift and GetGift, every gift
has 0 <= used <= max(capacity, 0), so used <= capacity whenever the capacity is
not negative; and no call lowers the used of any gift, nor changes its capacity
or amount. -/
theorem used_bounded_monotone (r : Rand) (ops : List Op) (s : State)
    (h : runOps ⟨DB.empty, r⟩ ops = some s) :
    (∀ g ∈ s.dbConnect.gifts,
      0 ≤ g.Used ∧ g.Used ≤ max g.Capacity 0 ∧ (0 ≤ g.Capacity → g.Used ≤ g.Capacity)) ∧
    (∀ (op : Op) (s1 : State) (resp : Response), step s op = some (s1, resp) →
      ∀ g ∈ s.dbConnect.gifts, ∃ g1 ∈ s1.dbConnect.gifts,
        g1.Id = g.Id ∧ g.Used ≤ g1.Used ∧ g1.Capacity = g.Capacity ∧ g1.Amount = g.Amount) := by
  obtain ⟨hkey, hused⟩ := runOps_usedOk ops _ s h empty_giftKey empty_usedOk
  refine ⟨?_, ?_⟩
  · intro g hg
    obtain ⟨h0, h1⟩ := hused g hg
    exact ⟨h0, h1, fun hc => by rwa [max_eq_left hc] at h1⟩
  · intro op s1 resp hstep
    exact (step_effect s s1 op resp hstep).monotone hkey

theorem used_bounded_monotone_witness :
    runOps ⟨DB.empty, sampleRand⟩
        [.addStream sampleStream sampleStreamExt, .addGift ⟨10, 2, "s1"⟩ sampleExt,
          .getGift ⟨"dkryFMT0"⟩ sampleExt]
      = some ⟨sampleDB 1 2, ⟨sampleRand.src, 8⟩⟩ ∧
    ((∀ g ∈ (sampleDB 1 2).gifts,
      0 ≤ g.Used ∧ g.Used ≤ max g.Capacity 0 ∧ (0 ≤ g.Capacity → g.Used ≤ g.Capacity)) ∧
    (∀ (op : Op) (s1 : State) (resp : Response),
      step ⟨sampleDB 1 2, ⟨sampleRand.src, 8⟩⟩ op = some (s1, resp) →
      ∀ g ∈ (sampleDB 1 2).gifts, ∃ g1 ∈ s1.dbConnect.gifts,
        g1.Id = g.Id ∧ g.Used ≤ g1.Used ∧ g1.Capacity = g.Capacity ∧ g1.Amount = g.Amount)) :=
  ⟨by rfl,
    used_bounded_monotone sampleRand
      [.addStream sampleStream sampleStreamExt, .addGift ⟨10, 2, "s1"⟩ sampleExt,
        .getGift ⟨"dkryFMT0"⟩ sampleExt]
      ⟨sampleDB 1 2, ⟨sampleRand.src, 8⟩⟩ (by rfl)⟩

/-- C3 as stated fails: AddStream, then AddGift with capacity -1 (answered 201),
leaves a gift with used = 0 and capacity = -1, and 0 <= -1 is false. -/
theorem used_exceeds_negative_capacity :
    (AddGift (AddStream ⟨DB.empty, sampleRand⟩ sampleStream sampleStreamExt).1
        ⟨10, -1, "s1"⟩ sampleExt).map (fun out => out.2.code) = some 201 ∧
    (runOps ⟨DB.empty, sampleRand⟩
        [.addStream sampleStream sampleStreamExt, .addGift ⟨10, -1, "s1"⟩ sampleExt]).map
      (fun s => s.dbConnect.gifts.map fun g => (g.Used, g.Capacity, decide (g.Used ≤ g.Capacity)))
      = some [(0, -1, false)] := by
  decide

/-- C7: in every store reachable from the empty store by calls whose generated
ids are not empty (a `guuid.New().String()` has 36 characters), every
DiscountManager row has DiscountGift = false exactly when DiscountId is set and
GiftId is empty, and DiscountGift = true exactly when GiftId is set and
DiscountId is empty; the id that is set is the id of a stored Discount,
respectively Gift. -/
theorem manager_discriminator (r : Rand) (ops : List Op) (s : State)
    (huuid : ∀ op ∈ ops, ∀ k, op.ext.uuid k ≠ "")
    (h : runOps ⟨DB.empty, r⟩ ops = some s) :
    ∀ m ∈ s.dbConnect.discount_managers,
      (m.DiscountGift = false ↔ (m.DiscountId ≠ "" ∧ m.GiftId = "")) ∧
      (m.DiscountGift = true ↔ (m.GiftId ≠ "" ∧ m.DiscountId = "")) ∧
      (m.DiscountGift = false → ∃ d ∈ s.dbConnect.discounts, d.Id = m.DiscountId) ∧
      (m.DiscountGift = true → ∃ g ∈ s.dbConnect.gifts, g.Id = m.GiftId) := by
  have hlinks := runOps_linksOk ops _ s h huuid empty_linksOk
  intro m hm
  rcases hlinks m hm with ⟨h1, h2, h3, h4⟩ | ⟨h1, h2, h3, h4⟩
  · refine ⟨⟨fun _ => ⟨h2, h3⟩, fun _ => h1⟩, ⟨fun ht => ?_, fun hg => ?_⟩, fun _ => h4, fun ht => ?_⟩
    · rw [h1] at ht; cases ht
    · exact absurd hg.2 h2
    · rw [h1] at ht; cases ht
  · refine ⟨⟨fun hf => ?_, fun hd => ?_⟩, ⟨fun _ => ⟨h2, h3⟩, fun _ => h1⟩, fun hf => ?_, fun _ => h4⟩
    · rw [h1] at hf; cases hf
    · exact absurd hd.2 h2
    · rw [h1] at hf; cases hf

theorem manager_discriminator_witness :
    (∀ op ∈ [Op.addStream sampleStream sampleStreamExt, .addGift ⟨10, 2, "s1"⟩ sampleExt,
        .addDiscount ⟨5, 10, false, "s1"⟩ sampleDiscountExt], ∀ k, op.ext.uuid k ≠ "") ∧
    runOps ⟨DB.empty, sampleRand⟩
        [.addStream sampleStream sampleStreamExt, .addGift ⟨10, 2, "s1"⟩ sampleExt,
          .addDiscount ⟨5, 10, false, "s1"⟩ sampleDiscountExt]
      = some ⟨⟨[sampleManager, ⟨"m2", "7&fmtAHO", false, "d1", "", "s1", 0, 0⟩],
          [⟨"d1", 10, 5, false, none, 0, 0⟩], [sampleGift 0 2], [sampleStream]⟩,
          ⟨sampleRand.src, 16⟩⟩ ∧
    ∀ m ∈ [sampleManager, ⟨"m2", "7&fmtAHO", false, "d1", "", "s1", 0, 0⟩],
      (m.DiscountGift = false ↔ (m.DiscountId ≠ "" ∧ m.GiftId = "")) ∧
      (m.DiscountGift = true ↔ (m.GiftId ≠ "" ∧ m.DiscountId = "")) ∧
      (m.DiscountGift = false →
        ∃ d ∈ [(⟨"d1", 10, 5, false, none, 0, 0⟩ : Discount)], d.Id = m.DiscountId) ∧
      (m.DiscountGift = true → ∃ g ∈ [sampleGift 0 2], g.Id = m.GiftId) :=
  have huuid : ∀ op ∈ [Op.addStream sampleStream sampleStreamExt,
      .addGift ⟨10, 2, "s1"⟩ sampleExt,
      .addDiscount ⟨5, 10, false, "s1"⟩ sampleDiscountExt], ∀ k, op.ext.uuid k ≠ "" := by
    intro op hop k
    simp only [List.mem_cons, List.mem_singleton, List.not_mem_nil, or_false] at hop
    rcases hop with rfl | rfl | rfl
    · simp [Op.ext, sampleStreamExt]
    · simp only [Op.ext, sampleExt]; split <;> decide
    · simp only [Op.ext, sampleDiscountExt]; split <;> decide
  ⟨huuid, by rfl,
    manager_discriminator sampleRand
      [.addStream sampleStream sampleStreamExt, .addGift ⟨10, 2, "s1"⟩ sampleExt,
        .addDiscount ⟨5, 10, false, "s1"⟩ sampleDiscountExt]
      ⟨⟨[sampleManager, ⟨"m2", "7&fmtAHO", false, "d1", "", "s1", 0, 0⟩],
          [⟨"d1", 10, 5, false, none, 0, 0⟩], [sampleGift 0 2], [sampleStream]⟩,
        ⟨sampleRand.src, 16⟩⟩ huuid (by rfl)⟩

/-! ## Issuing a discount for a stream that does not exist -/

/-- When no stream has the requested id and the insert of the discount goes
through, `AddDiscount` answers 500 and the new Discount row stays in the store;
no DiscountManager row is written. -/
theorem AddDiscount_missing_stream (s : State) (req : AddDiscountType) (e : Ext)
    (hstream : ∀ st ∈ s.dbConnect.streams, st.Id ≠ req.StreamId)
    (hfault : e.fault 0 = false) (hnew : ∀ d ∈ s.dbConnect.discounts, d.Id ≠ e.uuid 0) :
    AddDiscount s req e =
      some ({ s with dbConnect := { s.dbConnect with discounts := s.dbConnect.discounts ++
          [⟨e.uuid 0, req.Percent, req.Amount, req.PercentAmount, none, e.now 0, e.now 1⟩] } },
        somethingWentWrong) := by
  have hins : insertDiscount (e.fault 0) s.dbConnect
      ⟨e.uuid 0, req.Percent, req.Amount, req.PercentAmount, none, e.now 0, e.now 1⟩ =
      .ok { s.dbConnect with discounts := s.dbConnect.discounts ++
        [⟨e.uuid 0, req.Percent, req.Amount, req.PercentAmount, none, e.now 0, e.now 1⟩] } := by
    have hmem : ¬ e.uuid 0 ∈ s.dbConnect.discounts.map Discount.Id := by
      intro hm
      obtain ⟨d, hd, hid⟩ := List.mem_map.1 hm
      exact hnew d hd hid
    simp [insertDiscount, hfault, hmem]
  have hnone : (s.dbConnect.streams.filter fun st => st.Id = req.StreamId) = [] := by
    apply List.eq_nil_iff_forall_not_mem.2
    intro st hst
    have := List.mem_filter.1 hst
    exact hstream st this.1 (by simpa using this.2)
  have hsel : ∀ b, ∃ err, selectStream b
      { s.dbConnect with discounts := s.dbConnect.discounts ++
        [⟨e.uuid 0, req.Percent, req.Amount, req.PercentAmount, none, e.now 0, e.now 1⟩] }
      req.StreamId = .error err := by
    intro b
    cases b with
    | true => exact ⟨_, rfl⟩
    | false => exact ⟨.ErrNoRows, by simp [selectStream, hnone, assertOneRow_nil]⟩
  obtain ⟨err, herr⟩ := hsel (e.fault 1)
  simp only [AddDiscount, hins, herr]

/-- C4 fails on the code: on the empty store (no stream at all), `AddDiscount`
for stream "s1" answers 500, and afterwards the Discount table holds the new
row "d1"; the DiscountManager table is still empty. -/
theorem AddDiscount_missing_stream_keeps_discount :
    (AddDiscount ⟨DB.empty, sampleRand⟩ ⟨5, 10, false, "s1"⟩ sampleDiscountExt).map
        (fun out => (out.2.code, out.1.dbConnect.discounts, out.1.dbConnect.discount_managers))
      = some (500, [⟨"d1", 10, 5, false, none, 0, 0⟩], []) ∧
    DB.empty.discounts = [] := by
  decide

/-! ## Interleaved calls of `GetGift` -/

/-- An invocation advanced twice in a row, with nothing in between, is the
handler `GetGift`. -/
theorem Call.advance_twice (s : State) (req : GetGiftType) (e : Ext) :
    Call.advance ((Call.start req e).advance s.dbConnect).1
        ((Call.start req e).advance s.dbConnect).2
      = ((GetGift s req e).1.dbConnect, .done (GetGift s req e).2) := by
  cases hsel : selectGift (e.fault 0) s.dbConnect req.Code with
  | error err => simp [Call.advance, GetGift, hsel]
  | ok g =>
    by_cases hcap : g.Capacity ≤ g.Used
    · simp [Call.advance, GetGift, hsel, hcap]
    · cases hupd : updateGiftUsed (e.fault 1) s.dbConnect (g.Used + 1) g.Id with
      | error err => simp [Call.advance, GetGift, hsel, hcap, hupd]
      | ok db1 => simp [Call.advance, GetGift, hsel, hcap, hupd]

/-- C5 fails on the code: two calls of `GetGift` on a gift of capacity 1, with
both selects before both updates, both answer 200 and leave used = 1, while
min(2, 1) = 1; run one after the other, the same two calls answer 200 and 412. -/
theorem concurrent_redeem_oversells :
    (interleave (sampleDB 0 1)
        [.start ⟨"dkryFMT0"⟩ sampleExt, .start ⟨"dkryFMT0"⟩ sampleExt] [0, 1, 0, 1]).2.map
      (fun c => c.response.map Response.code) = [some 200, some 200] ∧
    (interleave (sampleDB 0 1)
        [.start ⟨"dkryFMT0"⟩ sampleExt, .start ⟨"dkryFMT0"⟩ sampleExt] [0, 1, 0, 1]).1.gifts.map
      (fun g => (g.Used, g.Capacity)) = [(1, 1)] ∧
    (interleave (sampleDB 0 1)
        [.start ⟨"dkryFMT0"⟩ sampleExt, .start ⟨"dkryFMT0"⟩ sampleExt] [0, 0, 1, 1]).2.map
      (fun c => c.response.map Response.code) = [some 200, some 412] ∧
    min 2 1 = 1 := by
  decide

end Controller
